import Mathlib

/-!
Verification of the caching and generation-orchestration subsystem of the
Gemini-Speak TTS addon (`src/core/constants.py`, `src/core/models.py`,
`src/core/exceptions.py`, `src/services/audio_generator.py`,
`src/services/cache_manager.py`).

Modelling conventions:
* Python floats (timestamps, temperatures, durations) are modelled as exact
  rationals (`ℚ`); the claims under study only compare and subtract them.
* Byte strings are modelled as `List Nat`; only their length matters to the
  properties proved here.
* Exceptions are modelled with explicit `Except` values; a Python
  `try/except` block becomes a `match` on the `Except` result.
* The network and the cache backend are oracles supplied through an
  environment record, so theorems quantify over every possible behaviour.
-/

namespace ModelConstants

/-- Model id constant `ModelConstants.FLASH_UNIFIED`. -/
def FLASH_UNIFIED : String := "gemini-2.5-flash-preview-06-05"

/-- Model id constant `ModelConstants.PRO_UNIFIED`. -/
def PRO_UNIFIED : String := "gemini-2.5-pro-preview-06-05"

/-- Model id constant `ModelConstants.FLASH_TTS`. -/
def FLASH_TTS : String := "gemini-2.5-flash-preview-tts"

/-- Model id constant `ModelConstants.PRO_TTS`. -/
def PRO_TTS : String := "gemini-2.5-pro-preview-tts"

/-- Constant `ModelConstants.DEFAULT_MODEL`. -/
def DEFAULT_MODEL : String := "flash_unified"

/-- Constant `ModelConstants.DEFAULT_FALLBACK_MODEL`. -/
def DEFAULT_FALLBACK_MODEL : String := "flash_tts"

end ModelConstants

namespace AudioConstants

/-- Constant `AudioConstants.MIN_AUDIO_SIZE` (bytes). -/
def MIN_AUDIO_SIZE : Nat := 1000

/-- Constant `AudioConstants.MAX_AUDIO_SIZE` (bytes). -/
def MAX_AUDIO_SIZE : Nat := 50 * 1024 * 1024

end AudioConstants

namespace CacheConstants

/-- Constant `CacheConstants.METADATA_FILENAME`. -/
def METADATA_FILENAME : String := "cache_metadata.json"

/-- Constant `CacheConstants.TEMP_FILE_PREFIX` (the reserved temp-file marker
`".cache_tmp_"`); named `tempFileMarker` here. -/
def tempFileMarker : String := ".cache_tmp_"

/-- Constant `CacheConstants.TEMP_FILE_CLEANUP_HOURS`. -/
def TEMP_FILE_CLEANUP_HOURS : Int := 1

end CacheConstants

/-- Embedding of the dataclass `TTSConfig` from `src/core/models.py`
(every field of the dataclass is kept; floats as `ℚ`, ints as `ℤ`). -/
structure TTSConfig where
  api_key : String := ""
  model : String := "flash_unified"
  processing_mode : String := "unified"
  voice : String := "Zephyr"
  temperature : ℚ := 0
  thinking_budget : Int := 0
  enable_cache : Bool := true
  cache_days : Int := 30
  enable_fallback : Bool := true
  cache_preprocessing : Bool := true
  preprocessing_style : String := "natural"
  enable_style_control : Bool := true
  auto_detect_content : Bool := true
  prefer_instructions : Bool := true
deriving DecidableEq

/-- Embedding of `AudioGenerationRequest` (`src/core/models.py`).  The
`processing_mode` field is stored after `__post_init__` resolution (it is
always a concrete string by the time the generator sees it); the `config`
field is omitted because `AudioGenerator` reads `self.config` everywhere, and
`__post_init__` length validation is outside the claims studied here. -/
structure AudioGenerationRequest where
  text : String
  processing_mode : String
  use_cache : Bool := true
deriving DecidableEq

/-- Embedding of `AudioGenerationResult` (`src/core/models.py`). -/
structure AudioGenerationResult where
  success : Bool
  filename : Option String := none
  error_message : Option String := none
  used_cache : Bool := false
  processing_mode : Option String := none
  generation_time : ℚ := 0
deriving DecidableEq

/-- The record serialized and hashed by `AudioGenerator._generate_cache_key`
(`src/services/audio_generator.py`, lines 276-292).  The actual key is
`md5(json.dumps(key_data, sort_keys=True))`; both `json.dumps` with sorted
keys and `md5` are deterministic functions of this record, so two requests get
identical keys exactly when they produce equal records.  Claims about key
equality are therefore settled on this record. -/
structure CacheKeyData where
  text : String
  model : String
  voice : String
  temperature : ℚ
  mode : String
  style : Option String
  thinking_budget : Int
deriving DecidableEq

/-- Embedding of `AudioGenerator._generate_cache_key`
(`src/services/audio_generator.py`, lines 276-292), up to the deterministic
serialize-and-hash step (see `CacheKeyData`). -/
def generateCacheKey (cfg : TTSConfig) (req : AudioGenerationRequest) : CacheKeyData :=
  { text := req.text
    model := cfg.model
    voice := cfg.voice
    temperature := cfg.temperature
    mode := req.processing_mode
    style := if cfg.enable_style_control then some cfg.preprocessing_style else none
    thinking_budget := if req.processing_mode = "unified" then cfg.thinking_budget else 0 }

/-- Embedding of the dataclass `CacheFileInfo` (`src/core/models.py`,
lines 161-174). -/
structure CacheFileInfo where
  created : ℚ
  accessed : ℚ
  version : String
  cache_key : String
  file_size : Int := 0
deriving DecidableEq

/-- Embedding of the property `CacheFileInfo.age_days`
(`src/core/models.py`, lines 170-174); `time.time()` is passed in as `now`. -/
def CacheFileInfo.age_days (info : CacheFileInfo) (now : ℚ) : ℚ :=
  (now - info.created) / (24 * 3600)

/-- Embedding of the dataclass `CacheMetadata` (`src/core/models.py`,
lines 176-206).  The `files` dict is an association list in Python dict
(insertion) order; its keys are unique, which theorems assume through an
explicit `Nodup` hypothesis where it matters. -/
structure CacheMetadata where
  version : String := "2.0"
  files : List (String × CacheFileInfo) := []
deriving DecidableEq

/-- Embedding of `CacheMetadata.update_access` (`src/core/models.py`,
lines 194-198); `time.time()` is passed in as `now`. -/
def CacheMetadata.update_access (m : CacheMetadata) (filename : String) (now : ℚ) :
    CacheMetadata :=
  { m with files := m.files.map fun p =>
      if p.1 = filename then (p.1, { p.2 with accessed := now }) else p }

/-- Embedding of `del metadata.files[filename]` (dict deletion; keys are
unique in a dict, so filtering every entry with that name is extensionally the
same operation). -/
def CacheMetadata.delete_file (m : CacheMetadata) (filename : String) : CacheMetadata :=
  { m with files := m.files.filter fun p => p.1 ≠ filename }

/-- Embedding of `CacheMetadata.add_file` (`src/core/models.py`,
lines 182-192); `time.time()` is passed in as `now`. -/
def CacheMetadata.add_file (m : CacheMetadata) (filename : String) (cache_key : String)
    (file_size : Int) (now : ℚ) : CacheMetadata :=
  { m with files := m.files ++ [(filename,
      { created := now, accessed := now, version := m.version,
        cache_key := cache_key, file_size := file_size })] }

/-- Embedding of `CacheMetadata.get_expired_files` (`src/core/models.py`,
lines 200-206): collect, in index order, the names of entries whose age
strictly exceeds `max_age_days`. -/
def CacheMetadata.get_expired_files (m : CacheMetadata) (now : ℚ) (max_age_days : Int) :
    List String :=
  m.files.filterMap fun p =>
    if p.2.age_days now > (max_age_days : ℚ) then some p.1 else none

/-- State of a `CacheManager` (`src/services/cache_manager.py`) together with
the slice of the filesystem it touches: the in-memory index (`self._metadata`,
already loaded), the set of audio file names present in the cache directory,
whether `_save_metadata` can currently write (false models any `OSError` or
JSON-dump failure inside `_save_metadata`, which the method converts to a
raised `CacheWriteException`), and the index currently persisted on disk. -/
structure CacheState where
  metadata : CacheMetadata
  diskFiles : List String
  persistOk : Bool
  persisted : CacheMetadata
deriving DecidableEq

/-- Loop body of `CacheManager.get_cached_file`
(`src/services/cache_manager.py`, lines 117-149).  The function scans
`metadata.files.items()` in order:
* first entry whose `cache_key` matches and whose file exists: update the
  access time, `_save_metadata()`, return the filename — unless the save
  raises, in which case the enclosing `except Exception` returns `None`;
* first entry whose `cache_key` matches and whose file is missing: delete the
  entry from the dict and `_save_metadata()`.  Whether or not the save
  raises, the call then returns `None`: deleting from the dict being iterated
  makes the next `next()` on the `items()` iterator raise
  `RuntimeError("dictionary changed size during iteration")` (CPython checks
  the size on every step, even after the last entry), and both that error and
  a save failure are swallowed by the enclosing `except Exception`;
* no matching entry: fall through and return `None` (a miss).
`full` is the whole in-memory index being mutated, `remaining` the part of the
iteration still ahead. -/
def lookupScan (dir : List String) (persistOk : Bool) (persisted : CacheMetadata)
    (full : CacheMetadata) (remaining : List (String × CacheFileInfo))
    (now : ℚ) (cache_key : String) : Option String × CacheState :=
  match remaining with
  | [] => (none, ⟨full, dir, persistOk, persisted⟩)
  | (fn, info) :: rest =>
    if info.cache_key = cache_key then
      if fn ∈ dir then
        let full2 := full.update_access fn now
        if persistOk then (some fn, ⟨full2, dir, true, full2⟩)
        else (none, ⟨full2, dir, false, persisted⟩)
      else
        let full2 := full.delete_file fn
        if persistOk then (none, ⟨full2, dir, true, full2⟩)
        else (none, ⟨full2, dir, false, persisted⟩)
    else lookupScan dir persistOk persisted full rest now cache_key

/-- Embedding of `CacheManager.get_cached_file`
(`src/services/cache_manager.py`, lines 117-149); see `lookupScan`. -/
def getCachedFile (st : CacheState) (now : ℚ) (cache_key : String) :
    Option String × CacheState :=
  lookupScan st.diskFiles st.persistOk st.persisted st.metadata st.metadata.files now cache_key

/-- What `CacheManager._load_metadata` (`src/services/cache_manager.py`,
lines 56-83) can find on disk: no metadata file, a file whose open/parse/
conversion raises (corrupt JSON or any load error), or a parsed JSON object.
The raw object mirrors the `data.get(...)`-with-default accesses. -/
structure RawFileEntry where
  created : Option ℚ
  accessed : Option ℚ
  version : Option String
  cache_key : Option String
  file_size : Option Int
deriving DecidableEq

/-- Parsed shape of the metadata JSON object (`version` and `files` keys,
each possibly absent). -/
structure RawMetadata where
  version : Option String
  files : List (String × RawFileEntry)
deriving DecidableEq

/-- Disk state seen by `_load_metadata`. -/
inductive MetadataSource where
  | absent
  | unreadable (reason : String)
  | readable (raw : RawMetadata)
deriving DecidableEq

/-- Embedding of `CacheManager._load_metadata`
(`src/services/cache_manager.py`, lines 56-83); `time.time()` is passed in as
`now` (used as the default for missing `created`/`accessed` fields).  Any
exception during load returns a fresh `CacheMetadata()`. -/
def loadMetadata (src : MetadataSource) (now : ℚ) : CacheMetadata :=
  match src with
  | .absent => {}
  | .unreadable _ => {}
  | .readable raw =>
    { version := raw.version.getD "1.0"
      files := raw.files.map fun p =>
        (p.1,
          { created := p.2.created.getD now
            accessed := p.2.accessed.getD now
            version := p.2.version.getD "1.0"
            cache_key := p.2.cache_key.getD ""
            file_size := p.2.file_size.getD 0 }) }

/-- Filename chosen by `CacheManager.save_audio`
(`src/services/cache_manager.py`, lines 158-160):
`f"gemini_tts_{cache_key[:8]}_{timestamp}.wav"`. -/
def saveAudioFilename (cache_key : String) (timestamp : Int) : String :=
  "gemini_tts_" ++ cache_key.take 8 ++ "_" ++ toString timestamp ++ ".wav"

/-- Temporary file name used by `CacheManager.save_audio`
(`src/services/cache_manager.py`, line 168): `f".tmp_{filename}"`. -/
def saveAudioTempName (filename : String) : String :=
  ".tmp_" ++ filename

/-- A directory entry as seen by `CacheManager.cleanup_temp_files`: a file
name plus its creation time (`os.path.getctime`). -/
structure DirEntry where
  name : String
  ctime : ℚ
deriving DecidableEq

/-- Python `name.startswith(pre)`. -/
def pyStartsWith (name pre : String) : Bool :=
  decide (pre.toList <+: name.toList)

/-- Embedding of `CacheManager.cleanup_temp_files`
(`src/services/cache_manager.py`, lines 247-276): remove every file in the
cache directory whose name starts with `CacheConstants.TEMP_FILE_PREFIX` and
whose age exceeds `TEMP_FILE_CLEANUP_HOURS * 3600` seconds; return the
surviving directory and the number of removed files. -/
def cleanupTempFiles (dir : List DirEntry) (now : ℚ) : List DirEntry × Nat :=
  let doomed : DirEntry → Bool := fun e =>
    pyStartsWith e.name CacheConstants.tempFileMarker &&
      decide (now - e.ctime > (CacheConstants.TEMP_FILE_CLEANUP_HOURS : ℚ) * 3600)
  (dir.filter fun e => !(doomed e), (dir.filter doomed).length)

/-- Embedding of `CacheManager.cleanup_expired_files`
(`src/services/cache_manager.py`, lines 210-245): compute the expired names
via `CacheMetadata.get_expired_files`, then for each one remove the disk file
(when present) and delete the index entry; the updated index is persisted when
anything was removed.  Returns the new index, the surviving disk files, and
the removed count.  (`time.time()` is passed in as `now`; `self.config.
cache_days` as `cache_days`; the per-file `try/except` has nothing to catch in
this pure model.) -/
def cleanupExpiredFiles (m : CacheMetadata) (disk : List String) (now : ℚ)
    (cache_days : Int) : CacheMetadata × List String × Nat :=
  let expired := m.get_expired_files now cache_days
  ({ m with files := m.files.filter fun p => !decide (p.1 ∈ expired) },
   disk.filter fun fn => !decide (fn ∈ expired),
   expired.length)

/-- Python `str.lower` on the characters of a string. -/
def pyLower (s : String) : String :=
  String.mk (s.data.map Char.toLower)

/-- Python `needle in hay` on strings (substring containment). -/
def pyContains (hay needle : String) : Bool :=
  decide (needle.toList <:+: hay.toList)

/-- Embedding of the exception values of `src/core/exceptions.py` that the
generation pipeline can raise.  Each constructor carries the `message`
argument passed to the constructor; fields derived deterministically from it
(`error_code`, `status_code`, `user_message`) are recovered by the functions
below.  `keyError` stands for a Python `KeyError` from the
`get_model_definitions()[self.config.model]` lookup. -/
inductive TTSExc where
  | apiError (msg : String) (status : Option Int)
  | invalidAPIKey (msg : String)
  | rateLimited (msg : String)
  | badRequest (msg : String)
  | timeoutError (msg : String)
  | connectionError (msg : String)
  | networkError (msg : String)
  | audioError (msg : String)
  | audioSizeError (msg : String) (size : Nat)
  | cacheWriteError (msg : String)
  | keyError (key : String)
deriving DecidableEq

/-- Embedding of `TTSException.__str__` (`src/core/exceptions.py`,
lines 21-24): `f"[{error_code}] {message}"` when an `error_code` is set,
otherwise the plain message; a bare `KeyError` prints its key in quotes. -/
def TTSExc.str : TTSExc → String
  | .apiError msg _ => msg
  | .invalidAPIKey msg => "[INVALID_API_KEY] " ++ msg
  | .rateLimited msg => "[RATE_LIMITED] " ++ msg
  | .badRequest msg => "[BAD_REQUEST] " ++ msg
  | .timeoutError msg => "[TIMEOUT] " ++ msg
  | .connectionError msg => "[CONNECTION_ERROR] " ++ msg
  | .networkError msg => msg
  | .audioError msg => msg
  | .audioSizeError msg _ => "[AUDIO_SIZE_ERROR] " ++ msg
  | .cacheWriteError msg => "[CACHE_WRITE_ERROR] " ++ msg
  | .keyError key => "\x27" ++ key ++ "\x27"

/-- Embedding of `getattr(error, "user_message", str(error))` as used by
`AudioGenerator._handle_generation_error`, together with the `user_message`
assignments made by each constructor in `src/core/exceptions.py`:
`APIException` overrides by status code (403/429/400), `NetworkException`
checks the timeout flag and then `"connection" in message.lower()`,
`AudioException` and its subclasses and `CacheException` set fixed texts, and
a bare `KeyError` has no `user_message`, so `str(error)` is used. -/
def TTSExc.userMessage : TTSExc → String
  | .apiError msg status =>
    if status = some 403 then "Invalid API key. Check your configuration."
    else if status = some 429 then "Rate limited. Wait a moment and try again."
    else if status = some 400 then "Invalid request. Check your text and settings."
    else msg
  | .invalidAPIKey _ => "Invalid API key. Check your configuration."
  | .rateLimited _ => "Rate limited. Wait a moment and try again."
  | .badRequest _ => "Invalid request. Check your text and settings."
  | .timeoutError _ => "Network timeout. Check your connection."
  | .connectionError msg =>
    if pyContains (pyLower msg) "connection" then "Connection failed. Check your internet."
    else "Network error. Check your connection."
  | .networkError msg =>
    if pyContains (pyLower msg) "connection" then "Connection failed. Check your internet."
    else "Network error. Check your connection."
  | .audioError _ => "Audio processing error."
  | .audioSizeError _ _ => "Audio generation failed - invalid audio data received"
  | .cacheWriteError _ => "Cache error. Audio may not be saved for reuse."
  | .keyError key => "\x27" ++ key ++ "\x27"

/-- Embedding of `isinstance(error, (InvalidAPIKeyException,
RateLimitedException))` (`src/services/audio_generator.py`, line 300). -/
def TTSExc.isCredentialOrRateLimit : TTSExc → Bool
  | .invalidAPIKey _ => true
  | .rateLimited _ => true
  | _ => false

/-- Embedding of `create_api_exception` (`src/core/exceptions.py`,
lines 253-270): map 400 to `BadRequestException`, 401 and 403 to
`InvalidAPIKeyException`, 429 to `RateLimitedException`, anything else to a
plain `APIException` carrying the status code. -/
def createApiException (status : Int) (msg : String) : TTSExc :=
  if status = 400 then .badRequest msg
  else if status = 401 then .invalidAPIKey msg
  else if status = 403 then .invalidAPIKey msg
  else if status = 429 then .rateLimited msg
  else .apiError msg (some status)

/-- Embedding of `handle_http_error` (`src/core/exceptions.py`,
lines 272-290): build the `f"HTTP {status_code}: {reason}"` message and
dispatch on the status code. -/
def handleHttpError (status : Int) (reason : String) : TTSExc :=
  createApiException status ("HTTP " ++ toString status ++ ": " ++ reason)

/-- Embedding of `handle_network_error` (`src/core/exceptions.py`,
lines 292-309): classify by substring of the lowercased error text. -/
def handleNetworkError (msg : String) : TTSExc :=
  if pyContains (pyLower msg) "timeout" then .timeoutError msg
  else if pyContains (pyLower msg) "connection" then .connectionError msg
  else .networkError msg

/-- JSON object possibly stored under a response part's `"inlineData"` key.
The `data` field, when present, carries the base64-*decoded* audio bytes
(base64 decoding is deterministic, so it is folded into the model). -/
structure InlineData where
  data : Option (List Nat)
deriving DecidableEq

/-- One element of the response's `parts` array. -/
structure ResponsePart where
  inlineData : Option InlineData
deriving DecidableEq

/-- The response's `content` object (`parts` key possibly absent). -/
structure ResponseContent where
  parts : Option (List ResponsePart)
deriving DecidableEq

/-- One element of the response's `candidates` array (`content` key possibly
absent). -/
structure ResponseCandidate where
  content : Option ResponseContent
deriving DecidableEq

/-- Body of an HTTP response as consumed by
`AudioGenerator._extract_audio_data`: either bytes that fail
`json.loads` (with the decoder's error text), or a parsed JSON object whose
`candidates` key may be absent. -/
inductive ResponseEnvelope where
  | malformedJson (msg : String)
  | parsed (candidates : Option (List ResponseCandidate))
deriving DecidableEq

/-- Exceptions that can arise inside the `try` block of
`_extract_audio_data` before its own `except` clauses run. -/
inductive ExtractRaise where
  | jsonDecode (msg : String)
  | pyKeyError (key : String)
  | indexError
  | tts (e : TTSExc)
deriving DecidableEq

/-- The `try` block of `AudioGenerator._extract_audio_data`
(`src/services/audio_generator.py`, lines 208-242): parse, check each level
of the envelope (`candidates`, `[0]`, `content`, `parts`, `[0]`,
`inlineData`, `["data"]`), decode, and validate the decoded size against
`MIN_AUDIO_SIZE`/`MAX_AUDIO_SIZE`, raising `AudioSizeException` when out of
range. -/
def extractAudioTry (body : ResponseEnvelope) : Except ExtractRaise (List Nat) :=
  match body with
  | .malformedJson msg => .error (.jsonDecode msg)
  | .parsed candidates =>
    match candidates with
    | none => .error (.tts (.apiError "Invalid API response: no candidates" none))
    | some cs =>
      match cs with
      | [] => .error .indexError
      | c :: _ =>
        match c.content with
        | none => .error (.tts (.apiError "Invalid API response: no content" none))
        | some content =>
          match content.parts with
          | none => .error (.tts (.apiError "Invalid API response: no parts" none))
          | some ps =>
            match ps with
            | [] => .error .indexError
            | p :: _ =>
              match p.inlineData with
              | none => .error (.tts (.apiError "Invalid API response: no audio data" none))
              | some idata =>
                match idata.data with
                | none => .error (.pyKeyError "data")
                | some audio =>
                  if audio.length < AudioConstants.MIN_AUDIO_SIZE then
                    .error (.tts (.audioSizeError "Audio data too small" audio.length))
                  else if audio.length > AudioConstants.MAX_AUDIO_SIZE then
                    .error (.tts (.audioSizeError "Audio data too large" audio.length))
                  else .ok audio

/-- Embedding of `AudioGenerator._extract_audio_data`
(`src/services/audio_generator.py`, lines 205-249): run the `try` block and
apply its `except` clauses.  `json.JSONDecodeError` and `KeyError` get their
dedicated handlers; *every other* exception — including the
`AudioSizeException` and the `APIException`s the block itself raises — is
caught by the final `except Exception` and re-raised as a plain
`AudioException(f"Audio extraction failed: {str(e)}")`, erasing its type. -/
def extractAudioData (body : ResponseEnvelope) : Except TTSExc (List Nat) :=
  match extractAudioTry body with
  | .ok audio => .ok audio
  | .error (.jsonDecode msg) => .error (.apiError ("Invalid JSON response: " ++ msg) none)
  | .error (.pyKeyError key) =>
    .error (.apiError ("Missing response field: \x27" ++ key ++ "\x27") none)
  | .error .indexError => .error (.audioError "Audio extraction failed: list index out of range")
  | .error (.tts e) => .error (.audioError ("Audio extraction failed: " ++ e.str))

/-- Outcome of `urllib.request.urlopen` inside
`AudioGenerator._call_gemini_api`: a response object (status plus body), an
`HTTPError` (status plus reason), or a `URLError` (message). -/
inductive Transport where
  | ok (status : Int) (body : ResponseEnvelope)
  | httpError (status : Int) (reason : String)
  | urlError (msg : String)
deriving DecidableEq

/-- Embedding of the response handling of `AudioGenerator._call_gemini_api`
(`src/services/audio_generator.py`, lines 186-203).  On a response object:
a non-200 status raises `create_api_exception(status, f"HTTP {status}")`, and
otherwise `_extract_audio_data` runs; either raise is a `TTSException`, not a
`urllib` error, so it falls through to the final `except Exception` and is
re-raised as `APIException(f"API call failed: {str(e)}")` — again erasing the
original type.  An `HTTPError` is mapped by `handle_http_error`, a `URLError`
by `handle_network_error`, and those raises (being inside `except` clauses)
propagate unwrapped. -/
def callGeminiApi (t : Transport) : Except TTSExc (List Nat) :=
  match t with
  | .ok status body =>
    if status ≠ 200 then
      .error (.apiError ("API call failed: " ++
        (createApiException status ("HTTP " ++ toString status)).str) none)
    else
      match extractAudioData body with
      | .ok audio => .ok audio
      | .error e => .error (.apiError ("API call failed: " ++ e.str) none)
  | .httpError status reason => .error (handleHttpError status reason)
  | .urlError msg => .error (handleNetworkError msg)

namespace APIConstants

/-- Constant `APIConstants.UNIFIED_TIMEOUT` (seconds). -/
def UNIFIED_TIMEOUT : ℚ := 45

/-- Constant `APIConstants.TRADITIONAL_TIMEOUT` (seconds). -/
def TRADITIONAL_TIMEOUT : ℚ := 30

end APIConstants

/-- One entry of `ModelConstants.get_model_definitions()`
(`src/core/constants.py`, lines 51-81). -/
structure ModelDef where
  model_id : String
  display_name : String
  description : String
  mode : String
  thinking_budget_range : Option (Int × Int) := none
deriving DecidableEq

/-- Embedding of `ModelConstants.get_model_definitions`
(`src/core/constants.py`, lines 51-81). -/
def getModelDefinitions : List (String × ModelDef) :=
  [("flash_unified",
    { model_id := ModelConstants.FLASH_UNIFIED
      display_name := "Gemini 2.5 Flash (Unified)"
      description := "AI preprocessing + TTS in one call"
      mode := "unified"
      thinking_budget_range := some (0, 24576) }),
   ("pro_unified",
    { model_id := ModelConstants.PRO_UNIFIED
      display_name := "Gemini 2.5 Pro (Unified)"
      description := "Best quality with AI preprocessing"
      mode := "unified"
      thinking_budget_range := some (128, 32768) }),
   ("flash_tts",
    { model_id := ModelConstants.FLASH_TTS
      display_name := "Gemini 2.5 Flash (TTS Only)"
      description := "Traditional TTS without preprocessing"
      mode := "traditional" }),
   ("pro_tts",
    { model_id := ModelConstants.PRO_TTS
      display_name := "Gemini 2.5 Pro (TTS Only)"
      description := "High quality traditional TTS"
      mode := "traditional" })]

/-- Dictionary lookup `get_model_definitions()[name]`; `none` models the
`KeyError` an unknown model name raises. -/
def lookupModelDef (name : String) : Option ModelDef :=
  getModelDefinitions.lookup name

/-- Argument tuple of one `AudioGenerator._call_gemini_api` invocation
(`src/services/audio_generator.py`, lines 149-184).  The JSON body and the
URL are deterministic functions of these fields (`thinkingBudget` is put in
the body only when positive), so the network oracle below is keyed on this
record and the list of these records counts the API calls made. -/
structure ApiPayload where
  model_id : String
  prompt : String
  voice : String
  temperature : ℚ
  timeout : ℚ
  thinking_budget : Int := 0
deriving DecidableEq

/-- Environment of an `AudioGenerator`: the network behaviour (outcome of
`urllib.request.urlopen` for each request payload), the behaviour of the
attached `CacheManager` (`save_audio` may return a filename or raise;
`get_cached_file` returns a filename or `None` and never raises), and the
presence flags and behaviour of the optional collaborators. -/
structure GenEnv where
  transport : ApiPayload → Transport
  cacheSave : CacheKeyData → List Nat → Except TTSExc String
  cacheLookup : CacheKeyData → Option String
  hasCacheManager : Bool := true
  hasTextProcessor : Bool := true
  preprocess : String → String := id

/-- One network round-trip: hand the payload to the transport and interpret
the response exactly as `_call_gemini_api` does. -/
def runGeminiCall (env : GenEnv) (p : ApiPayload) : Except TTSExc (List Nat) :=
  callGeminiApi (env.transport p)

/-- Embedding of `AudioGenerator._save_and_return`
(`src/services/audio_generator.py`, lines 251-274): try the cache write when
a cache manager is attached and the request allows caching; any exception
from `save_audio` is caught, leaving `filename = None`; the result is
successful either way.  Wall-clock `duration` is passed through. -/
def saveAndReturn (env : GenEnv) (cfg : TTSConfig) (req : AudioGenerationRequest)
    (audio : List Nat) (mode : String) (duration : ℚ) : AudioGenerationResult :=
  let filename : Option String :=
    if env.hasCacheManager && req.use_cache then
      match env.cacheSave (generateCacheKey cfg req) audio with
      | .ok fn => some fn
      | .error _ => none
    else none
  { success := true, filename := filename, used_cache := false,
    processing_mode := some mode, generation_time := duration }

/-- Embedding of `AudioGenerator._build_unified_prompt`
(`src/services/audio_generator.py`, lines 131-147). -/
def buildUnifiedPrompt (cfg : TTSConfig) (text : String) : String :=
  let base := "You are an expert text-to-speech specialist. Your task is to analyze the given text and convert it to natural, clear speech.\n\nText to process: "
    ++ text ++
    "\n\nInstructions:\n1. Analyze the text structure and content type\n2. Apply appropriate preprocessing for optimal speech synthesis\n3. Generate natural, flowing speech output\n4. Maintain the original meaning while optimizing for audio delivery"
  if cfg.preprocessing_style ≠ "natural" then
    base ++ "\n5. Use " ++ cfg.preprocessing_style ++ " style delivery"
  else base

/-- Text sent by `_generate_traditional` (`src/services/audio_generator.py`,
lines 104-114): preprocess when a text processor is attached and style
control is enabled, then wrap in the fixed instruction. -/
def traditionalPrompt (env : GenEnv) (cfg : TTSConfig) (req : AudioGenerationRequest) :
    String :=
  "Please convert this text to speech: " ++
    (if env.hasTextProcessor && cfg.enable_style_control then env.preprocess req.text
     else req.text)

/-- The `_call_gemini_api` argument tuple built by `_generate_traditional`
(`src/services/audio_generator.py`, lines 112-118); no thinking budget is
passed, so the parameter defaults to 0. -/
def traditionalPayload (env : GenEnv) (cfg : TTSConfig) (req : AudioGenerationRequest)
    (mdef : ModelDef) : ApiPayload :=
  { model_id := mdef.model_id, prompt := traditionalPrompt env cfg req,
    voice := cfg.voice, temperature := cfg.temperature,
    timeout := APIConstants.TRADITIONAL_TIMEOUT }

/-- The `_call_gemini_api` argument tuple built by `_generate_unified`
(`src/services/audio_generator.py`, lines 81-88). -/
def unifiedPayload (cfg : TTSConfig) (req : AudioGenerationRequest)
    (mdef : ModelDef) : ApiPayload :=
  { model_id := mdef.model_id, prompt := buildUnifiedPrompt cfg req.text,
    voice := cfg.voice, temperature := cfg.temperature,
    timeout := APIConstants.UNIFIED_TIMEOUT, thinking_budget := cfg.thinking_budget }

/-- The guard of `AudioGenerator._handle_generation_error`
(`src/services/audio_generator.py`, lines 298-300): fallback is attempted
only when it is enabled, the configured model is not already the fallback
model, and the error is not a credentials or rate-limit error. -/
def fallbackEligible (cfg : TTSConfig) (e : TTSExc) : Bool :=
  cfg.enable_fallback && cfg.model != ModelConstants.DEFAULT_FALLBACK_MODEL &&
    !e.isCredentialOrRateLimit

/-- Termination measure of the fallback recursion: once `self.config.model`
has been set to the fallback model, `fallbackEligible` is false and no
further recursive attempt can start. -/
def fallbackDepth (cfg : TTSConfig) : Nat :=
  if cfg.model = ModelConstants.DEFAULT_FALLBACK_MODEL then 0 else 1

mutual

/-- Embedding of `AudioGenerator._generate_traditional`
(`src/services/audio_generator.py`, lines 101-129).  The whole body runs in a
`try` whose handler calls `_handle_generation_error`; the exceptions that can
escape the body are the `KeyError` of the model-table lookup and whatever
`_call_gemini_api` raises.  Returns the result together with the list of API
calls made (wall-clock timing is abstracted to 0). -/
def generateTraditional (env : GenEnv) (cfg : TTSConfig) (req : AudioGenerationRequest) :
    AudioGenerationResult × List ApiPayload :=
  match lookupModelDef cfg.model with
  | none => handleGenerationError env cfg req (.keyError cfg.model)
  | some mdef =>
    let p := traditionalPayload env cfg req mdef
    match runGeminiCall env p with
    | .ok audio => (saveAndReturn env cfg req audio "traditional" 0, [p])
    | .error e =>
      let r := handleGenerationError env cfg req e
      (r.1, p :: r.2)
termination_by (fallbackDepth cfg, 1)

/-- Embedding of `AudioGenerator._handle_generation_error`
(`src/services/audio_generator.py`, lines 294-342).  When fallback is
eligible, `self.config.model` is temporarily set to the fallback model and
`_generate_traditional` is run on a request with the same text, mode
`"traditional"`, and the same `use_cache` flag (`_generate_traditional`
itself never raises, so the surrounding `except` is inert, and the `finally`
restore happens after the result is fixed).  A successful fallback result is
returned as-is; otherwise — and when fallback is not eligible — the result is
a failure carrying `getattr(error, "user_message", str(error))` of the
*original* error and the original request's processing mode. -/
def handleGenerationError (env : GenEnv) (cfg : TTSConfig) (req : AudioGenerationRequest)
    (e : TTSExc) : AudioGenerationResult × List ApiPayload :=
  if h : fallbackEligible cfg e then
    let cfg2 : TTSConfig := { cfg with model := ModelConstants.DEFAULT_FALLBACK_MODEL }
    let fbReq : AudioGenerationRequest :=
      { text := req.text, processing_mode := "traditional", use_cache := req.use_cache }
    let r := generateTraditional env cfg2 fbReq
    if r.1.success then r
    else ({ success := false, error_message := some e.userMessage,
            processing_mode := some req.processing_mode }, r.2)
  else
    ({ success := false, error_message := some e.userMessage,
       processing_mode := some req.processing_mode }, [])
termination_by (fallbackDepth cfg, 0)
decreasing_by
  have hm : cfg.model ≠ ModelConstants.DEFAULT_FALLBACK_MODEL := by
    simp [fallbackEligible, Bool.and_eq_true, bne_iff_ne] at h
    exact h.1.2
  apply Prod.Lex.left
  simp [fallbackDepth, hm]

end

/-- Embedding of `AudioGenerator._generate_unified`
(`src/services/audio_generator.py`, lines 72-99); like the traditional path
but with the unified prompt, the longer timeout and the configured thinking
budget. -/
def generateUnified (env : GenEnv) (cfg : TTSConfig) (req : AudioGenerationRequest) :
    AudioGenerationResult × List ApiPayload :=
  match lookupModelDef cfg.model with
  | none => handleGenerationError env cfg req (.keyError cfg.model)
  | some mdef =>
    let p := unifiedPayload cfg req mdef
    match runGeminiCall env p with
    | .ok audio => (saveAndReturn env cfg req audio "unified" 0, [p])
    | .error e =>
      let r := handleGenerationError env cfg req e
      (r.1, p :: r.2)

/-- Embedding of `AudioGenerator._try_cache_lookup`
(`src/services/audio_generator.py`, lines 50-70): derive the key, ask the
cache manager, and wrap a hit; a miss (and any caught exception — the lookup
path is total here) yields a failure result. -/
def tryCacheLookup (env : GenEnv) (cfg : TTSConfig) (req : AudioGenerationRequest) :
    AudioGenerationResult :=
  match env.cacheLookup (generateCacheKey cfg req) with
  | some fn =>
    { success := true, filename := some fn, used_cache := true,
      processing_mode := some req.processing_mode }
  | none => { success := false }

/-- Embedding of `AudioGenerator.generate_audio`
(`src/services/audio_generator.py`, lines 30-48): consult the cache when
allowed and return a hit; otherwise dispatch on the processing mode. -/
def generateAudio (env : GenEnv) (cfg : TTSConfig) (req : AudioGenerationRequest) :
    AudioGenerationResult × List ApiPayload :=
  let dispatch :=
    if req.processing_mode = "unified" then generateUnified env cfg req
    else generateTraditional env cfg req
  if req.use_cache && env.hasCacheManager then
    let cached := tryCacheLookup env cfg req
    if cached.success then (cached, []) else dispatch
  else dispatch

/-- The `get_model_definitions()` entry for
`ModelConstants.DEFAULT_FALLBACK_MODEL` (`"flash_tts"`). -/
def fallbackModelDef : ModelDef :=
  { model_id := ModelConstants.FLASH_TTS
    display_name := "Gemini 2.5 Flash (TTS Only)"
    description := "Traditional TTS without preprocessing"
    mode := "traditional" }

/-- The request `_handle_generation_error` builds for its fallback attempt
(`src/services/audio_generator.py`, lines 316-321). -/
def fallbackRequest (req : AudioGenerationRequest) : AudioGenerationRequest :=
  { text := req.text, processing_mode := "traditional", use_cache := req.use_cache }

/-- The `_call_gemini_api` argument tuple of the single fallback attempt made
by `_handle_generation_error` for a request `req` under configuration `cfg`
(the configuration used is `cfg` with `model` set to the fallback model). -/
def fallbackPayload (env : GenEnv) (cfg : TTSConfig) (req : AudioGenerationRequest) :
    ApiPayload :=
  traditionalPayload env { cfg with model := ModelConstants.DEFAULT_FALLBACK_MODEL }
    (fallbackRequest req) fallbackModelDef

/-- The `get_model_definitions()` entry for the default model
`"flash_unified"`. -/
def flashUnifiedDef : ModelDef :=
  { model_id := ModelConstants.FLASH_UNIFIED
    display_name := "Gemini 2.5 Flash (Unified)"
    description := "AI preprocessing + TTS in one call"
    mode := "unified"
    thinking_budget_range := some (0, 24576) }

/-- A concrete environment in which every network call fails: calls to the
fallback model id fail with HTTP 500, every other call with a connection
error; the cache always misses and every cache write raises
`CacheWriteException`.  Used to instantiate the fallback theorems. -/
def envBothCallsFail : GenEnv :=
  { transport := fun p =>
      if p.model_id = ModelConstants.FLASH_TTS then .httpError 500 "Server Error"
      else .urlError "connection refused"
    cacheSave := fun _ _ => .error (.cacheWriteError "disk full")
    cacheLookup := fun _ => none }

/-- A concrete environment in which every network call fails with HTTP 403
(invalid credentials); cache misses and failing writes as above. -/
def envCredentialFail : GenEnv :=
  { transport := fun _ => .httpError 403 "Forbidden"
    cacheSave := fun _ _ => .error (.cacheWriteError "disk full")
    cacheLookup := fun _ => none }

/-- A parsed response envelope carrying the given decoded audio bytes at the
`candidates[0].content.parts[0].inlineData.data` path. -/
def inlineAudioResponse (audio : List Nat) : ResponseEnvelope :=
  .parsed (some [{ content := some { parts := some [{ inlineData := some { data := some audio } }] } }])

/-- A concrete environment whose network always returns a valid envelope with
a 1500-byte audio payload, while every cache write raises
`CacheWriteException` and every lookup misses. -/
def envOkAudioFailingCache : GenEnv :=
  { transport := fun _ => .ok 200 (inlineAudioResponse (List.replicate 1500 0))
    cacheSave := fun _ _ => .error (.cacheWriteError "disk full")
    cacheLookup := fun _ => none }

/-! Theorems. -/

theorem lookupScan_persist_fail (dir : List String) (persisted : CacheMetadata)
    (now : ℚ) (key : String) :
    ∀ (remaining : List (String × CacheFileInfo)) (full : CacheMetadata),
      (lookupScan dir false persisted full remaining now key).1 = none := by
  intro remaining
  induction remaining with
  | nil => intro full; rfl
  | cons hd tl ih =>
    intro full
    obtain ⟨fn, info⟩ := hd
    simp only [lookupScan]
    by_cases h1 : info.cache_key = key
    · simp only [if_pos h1]
      by_cases h2 : fn ∈ dir
      · simp [h2]
      · simp [h2]
    · simp only [if_neg h1]
      exact ih full

/-- C9: for every cache key and every store/filesystem state,
`get_cached_file` is total (it is a plain function of the state in this
embedding, every exception being routed to the enclosing `except Exception`
handler), and whenever the index cannot be persisted — in particular when a
valid hit is found but recording the access-time update fails — the call
returns `None`, reporting a miss rather than propagating the error. -/
theorem getCachedFile_persist_failure_returns_none
    (m : CacheMetadata) (disk : List String) (persisted : CacheMetadata)
    (now : ℚ) (key : String) :
    (getCachedFile ⟨m, disk, false, persisted⟩ now key).1 = none := by
  unfold getCachedFile
  exact lookupScan_persist_fail disk persisted now key m.files m

/-- C10: when the on-disk metadata index exists but cannot be read or parsed,
`_load_metadata` returns a fresh empty `CacheMetadata` (version `"2.0"`, no
files) instead of raising, and every subsequent lookup on the resulting state
misses regardless of the key or the cache directory contents. -/
theorem loadMetadata_unreadable_resets
    (reason : String) (now now2 : ℚ) (key : String) (disk : List String)
    (canPersist : Bool) (persisted : CacheMetadata) :
    loadMetadata (.unreadable reason) now = ({} : CacheMetadata) ∧
    (getCachedFile ⟨loadMetadata (.unreadable reason) now, disk, canPersist, persisted⟩
        now2 key).1 = none := by
  exact ⟨rfl, rfl⟩

/-- C1: cache-key derivation is determined by the semantically relevant
fields: two requests agreeing on text, model, voice, temperature, mode, the
style-when-style-control-is-enabled value and the
thinking-budget-when-unified value get identical keys; in particular two
traditional-mode requests differing only in the configured thinking budget
collide (budget forced to 0 outside unified mode), and two requests differing
only in preprocessing style while style control is disabled collide (style
forced to `None`). -/
theorem generateCacheKey_semantic_agreement :
    (∀ (cfg1 cfg2 : TTSConfig) (req1 req2 : AudioGenerationRequest),
        req1.text = req2.text →
        cfg1.model = cfg2.model →
        cfg1.voice = cfg2.voice →
        cfg1.temperature = cfg2.temperature →
        req1.processing_mode = req2.processing_mode →
        (if cfg1.enable_style_control then some cfg1.preprocessing_style else none) =
          (if cfg2.enable_style_control then some cfg2.preprocessing_style else none) →
        (if req1.processing_mode = "unified" then cfg1.thinking_budget else 0) =
          (if req2.processing_mode = "unified" then cfg2.thinking_budget else 0) →
        generateCacheKey cfg1 req1 = generateCacheKey cfg2 req2) ∧
    (∀ (cfg : TTSConfig) (req : AudioGenerationRequest) (b1 b2 : Int),
        req.processing_mode = "traditional" →
        generateCacheKey { cfg with thinking_budget := b1 } req =
          generateCacheKey { cfg with thinking_budget := b2 } req) ∧
    (∀ (cfg : TTSConfig) (req : AudioGenerationRequest) (s1 s2 : String),
        cfg.enable_style_control = false →
        generateCacheKey { cfg with preprocessing_style := s1 } req =
          generateCacheKey { cfg with preprocessing_style := s2 } req) := by
  refine ⟨?_, ?_, ?_⟩
  · intro cfg1 cfg2 req1 req2 ht hm hv htemp hmode hstyle hbudget
    rw [hmode] at hbudget
    simp only [generateCacheKey, CacheKeyData.mk.injEq]
    exact ⟨ht, hm, hv, htemp, hmode, hstyle, by rw [hmode]; exact hbudget⟩
  · intro cfg req b1 b2 hmode
    simp [generateCacheKey, hmode]
  · intro cfg req s1 s2 hsc
    simp [generateCacheKey, hsc]

theorem generateCacheKey_semantic_agreement_witness :
    generateCacheKey { api_key := "k1" } { text := "hello", processing_mode := "unified" } =
      generateCacheKey { api_key := "k2" } { text := "hello", processing_mode := "unified" } ∧
    generateCacheKey { thinking_budget := 5 } { text := "hi", processing_mode := "traditional" } =
      generateCacheKey { thinking_budget := 9 } { text := "hi", processing_mode := "traditional" } ∧
    generateCacheKey { enable_style_control := false, preprocessing_style := "technical" }
        { text := "hi", processing_mode := "unified" } =
      generateCacheKey { enable_style_control := false, preprocessing_style := "professional" }
        { text := "hi", processing_mode := "unified" } :=
  ⟨generateCacheKey_semantic_agreement.1 { api_key := "k1" } { api_key := "k2" }
      { text := "hello", processing_mode := "unified" }
      { text := "hello", processing_mode := "unified" } rfl rfl rfl rfl rfl rfl rfl,
   generateCacheKey_semantic_agreement.2.1 {}
      { text := "hi", processing_mode := "traditional" } 5 9 rfl,
   generateCacheKey_semantic_agreement.2.2 { enable_style_control := false }
      { text := "hi", processing_mode := "unified" } "technical" "professional" rfl⟩

/-- C5 (code bug): the transient file created by `save_audio` is named
`".tmp_" + filename`, which does *not* carry the reserved prefix
`CacheConstants.TEMP_FILE_PREFIX = ".cache_tmp_"` that `cleanup_temp_files`
matches, so an abandoned temp file — here two hours old, well past the
one-hour grace period — is never removed by the cleanup (it removes 0
files and leaves the directory unchanged). -/
theorem saveAudio_temp_name_escapes_cleanup :
    pyStartsWith (saveAudioTempName (saveAudioFilename "abcdef0123456789" 1700000000))
        CacheConstants.tempFileMarker = false ∧
    cleanupTempFiles
        [{ name := saveAudioTempName (saveAudioFilename "abcdef0123456789" 1700000000),
           ctime := 0 }] 7200 =
      ([{ name := saveAudioTempName (saveAudioFilename "abcdef0123456789" 1700000000),
          ctime := 0 }], 0) := by
  decide

theorem lookupScan_skip (dir : List String) (po : Bool) (persisted : CacheMetadata)
    (now : ℚ) (key : String) :
    ∀ (pre rest : List (String × CacheFileInfo)) (full : CacheMetadata),
      (∀ p ∈ pre, p.2.cache_key ≠ key) →
      lookupScan dir po persisted full (pre ++ rest) now key =
        lookupScan dir po persisted full rest now key := by
  intro pre
  induction pre with
  | nil => intro rest full _; rfl
  | cons hd tl ih =>
    intro rest full hpre
    obtain ⟨fn, info⟩ := hd
    have hne : info.cache_key ≠ key := hpre (fn, info) (by simp)
    simp only [List.cons_append, lookupScan, if_neg hne]
    exact ih rest full fun p hp => hpre p (by simp [hp])

theorem keys_not_in_sides (fn : String) (info : CacheFileInfo)
    (pre post : List (String × CacheFileInfo))
    (hnd : ((pre ++ (fn, info) :: post).map Prod.fst).Nodup) :
    fn ∉ pre.map Prod.fst ∧ fn ∉ post.map Prod.fst := by
  rw [List.map_append, List.map_cons, List.nodup_append] at hnd
  obtain ⟨h1, h2, h3⟩ := hnd
  rw [List.nodup_cons] at h2
  exact ⟨fun hmem => h3 hmem (List.mem_cons_self _ _), h2.1⟩

theorem filter_key_ne_eq_self (l : List (String × CacheFileInfo)) (fn : String)
    (hm : fn ∉ l.map Prod.fst) : l.filter (fun p => p.1 ≠ fn) = l := by
  apply List.filter_eq_self.mpr
  intro p hp
  simp only [decide_eq_true_eq]
  intro hcontra
  exact hm (hcontra ▸ List.mem_map_of_mem Prod.fst hp)

theorem filter_key_ne_cons_same (l : List (String × CacheFileInfo)) (fn : String)
    (info : CacheFileInfo) :
    ((fn, info) :: l).filter (fun p => p.1 ≠ fn) = l.filter (fun p => p.1 ≠ fn) := by
  rw [List.filter_cons]
  simp

theorem filter_erase_middle (fn : String) (info : CacheFileInfo)
    (pre post : List (String × CacheFileInfo))
    (hpre : fn ∉ pre.map Prod.fst) (hpost : fn ∉ post.map Prod.fst) :
    (pre ++ (fn, info) :: post).filter (fun p => p.1 ≠ fn) = pre ++ post := by
  rw [List.filter_append, filter_key_ne_cons_same,
    filter_key_ne_eq_self pre fn hpre, filter_key_ne_eq_self post fn hpost]

/-- C3: for every store state whose index holds a (unique) entry for the
looked-up key and whose backing file is missing from the cache directory
(and no earlier entry matches the key, so the scan reaches it),
`get_cached_file` returns not-found, and on that same call the stale entry is
removed from the in-memory index and the pruned index is persisted.  (The
call returns `None` through the `except Exception` handler: deleting the dict
entry mid-iteration makes the next iterator step raise `RuntimeError`, which
the handler swallows after the save has already happened.) -/
theorem getCachedFile_stale_entry_selfheals
    (st : CacheState) (now : ℚ) (key fn : String) (info : CacheFileInfo)
    (pre post : List (String × CacheFileInfo))
    (hpersist : st.persistOk = true)
    (hfiles : st.metadata.files = pre ++ (fn, info) :: post)
    (hpre : ∀ p ∈ pre, p.2.cache_key ≠ key)
    (hkey : info.cache_key = key)
    (hmissing : fn ∉ st.diskFiles)
    (hnd : (st.metadata.files.map Prod.fst).Nodup) :
    getCachedFile st now key =
      (none,
       ⟨{ version := st.metadata.version, files := pre ++ post }, st.diskFiles, true,
        { version := st.metadata.version, files := pre ++ post }⟩) := by
  obtain ⟨⟨ver, files⟩, disk, po, persisted⟩ := st
  simp only at hpersist hfiles hmissing hnd ⊢
  subst hpersist
  subst hfiles
  unfold getCachedFile
  simp only
  rw [lookupScan_skip disk true persisted now key pre ((fn, info) :: post) _ hpre]
  obtain ⟨hl, hr⟩ := keys_not_in_sides fn info pre post hnd
  simp only [lookupScan, if_pos hkey]
  rw [if_neg hmissing]
  simp only [CacheMetadata.delete_file]
  rw [filter_erase_middle fn info pre post hl hr]
  simp

theorem getCachedFile_stale_entry_selfheals_witness :
    getCachedFile
      ⟨{ version := "2.0",
         files := [("a.wav", { created := 0, accessed := 0, version := "2.0", cache_key := "k1" }),
                   ("gone.wav", { created := 0, accessed := 0, version := "2.0", cache_key := "k2" })] },
       ["a.wav"], true,
       { version := "2.0",
         files := [("a.wav", { created := 0, accessed := 0, version := "2.0", cache_key := "k1" }),
                   ("gone.wav", { created := 0, accessed := 0, version := "2.0", cache_key := "k2" })] }⟩
      100 "k2" =
      (none,
       ⟨{ version := "2.0",
          files := [("a.wav", { created := 0, accessed := 0, version := "2.0", cache_key := "k1" })] },
        ["a.wav"], true,
        { version := "2.0",
          files := [("a.wav", { created := 0, accessed := 0, version := "2.0", cache_key := "k1" })] }⟩) :=
  getCachedFile_stale_entry_selfheals _ 100 "k2" "gone.wav"
    { created := 0, accessed := 0, version := "2.0", cache_key := "k2" }
    [("a.wav", { created := 0, accessed := 0, version := "2.0", cache_key := "k1" })] []
    rfl rfl (by decide) rfl (by decide) (by decide)

theorem mem_get_expired_files (m : CacheMetadata) (now : ℚ) (d : Int) (fn : String) :
    fn ∈ m.get_expired_files now d ↔
      ∃ info, (fn, info) ∈ m.files ∧ info.age_days now > (d : ℚ) := by
  simp only [CacheMetadata.get_expired_files, List.mem_filterMap]
  constructor
  · rintro ⟨⟨a, b⟩, hmem, hif⟩
    by_cases hc : b.age_days now > (d : ℚ)
    · rw [if_pos hc] at hif
      cases hif
      exact ⟨b, hmem, hc⟩
    · rw [if_neg hc] at hif
      cases hif
  · rintro ⟨info, hmem, hage⟩
    exact ⟨(fn, info), hmem, by rw [if_pos hage]⟩

theorem nodup_keys_value_eq (l : List (String × CacheFileInfo))
    (hnd : (l.map Prod.fst).Nodup) :
    ∀ {fn : String} {a b : CacheFileInfo}, (fn, a) ∈ l → (fn, b) ∈ l → a = b := by
  induction l with
  | nil => intro fn a b ha _; cases ha
  | cons hd tl ih =>
    intro fn a b ha hb
    rw [List.map_cons, List.nodup_cons] at hnd
    obtain ⟨hhd, htl⟩ := hnd
    rcases List.mem_cons.mp ha with ha1 | ha2
    · rcases List.mem_cons.mp hb with hb1 | hb2
      · subst ha1
        injection hb1 with h1 h2
        exact h2.symm
      · subst ha1
        exact absurd (List.mem_map_of_mem Prod.fst hb2) hhd
    · rcases List.mem_cons.mp hb with hb1 | hb2
      · subst hb1
        exact absurd (List.mem_map_of_mem Prod.fst ha2) hhd
      · exact ih htl ha2 hb2

/-- C8: `cleanup_expired_files` evicts exactly the index entries whose age
`(now - created) / 86400` strictly exceeds the configured `max_age_days`: the
surviving index is the original filtered to the entries with age at most
`max_age_days` (so an age of exactly `max_age_days` is retained), and a name
is in the eviction list exactly when its entry is strictly older. -/
theorem cleanupExpiredFiles_exact_boundary (m : CacheMetadata) (disk : List String)
    (now : ℚ) (cache_days : Int) :
    ((m.files.map Prod.fst).Nodup →
      (cleanupExpiredFiles m disk now cache_days).1.files =
        m.files.filter fun p => decide (p.2.age_days now ≤ (cache_days : ℚ))) ∧
    (∀ fn, fn ∈ m.get_expired_files now cache_days ↔
      ∃ info, (fn, info) ∈ m.files ∧ info.age_days now > (cache_days : ℚ)) := by
  constructor
  · intro hnd
    simp only [cleanupExpiredFiles]
    apply List.filter_congr
    intro p hp
    obtain ⟨fn, info⟩ := p
    by_cases hgt : info.age_days now > (cache_days : ℚ)
    · have hin : fn ∈ m.get_expired_files now cache_days :=
        (mem_get_expired_files m now cache_days fn).mpr ⟨info, hp, hgt⟩
      have hnle : ¬ info.age_days now ≤ (cache_days : ℚ) := not_le.mpr hgt
      simp [hin, hnle]
    · have hnin : fn ∉ m.get_expired_files now cache_days := by
        intro hin
        obtain ⟨info2, hmem2, hage2⟩ := (mem_get_expired_files m now cache_days fn).mp hin
        have he : info2 = info := nodup_keys_value_eq m.files hnd hmem2 hp
        exact hgt (he ▸ hage2)
      have hle : info.age_days now ≤ (cache_days : ℚ) := not_lt.mp hgt
      simp [hnin, hle]
  · intro fn
    exact mem_get_expired_files m now cache_days fn

theorem cleanupExpiredFiles_exact_boundary_witness :
    (cleanupExpiredFiles
        { version := "2.0",
          files := [("edge.wav", { created := -2592000, accessed := 0, version := "2.0", cache_key := "e" }),
                    ("old.wav", { created := -2600640, accessed := 0, version := "2.0", cache_key := "o" })] }
        [] 0 30).1.files =
      List.filter (fun p => decide (p.2.age_days 0 ≤ ((30 : Int) : ℚ)))
        [("edge.wav", { created := -2592000, accessed := 0, version := "2.0", cache_key := "e" }),
         ("old.wav", { created := -2600640, accessed := 0, version := "2.0", cache_key := "o" })] :=
  (cleanupExpiredFiles_exact_boundary
    { version := "2.0",
      files := [("edge.wav", { created := -2592000, accessed := 0, version := "2.0", cache_key := "e" }),
                ("old.wav", { created := -2600640, accessed := 0, version := "2.0", cache_key := "o" })] }
    [] 0 30).1 (by decide)

theorem fallbackEligible_at_fb (cfg : TTSConfig) (e : TTSExc)
    (h : cfg.model = ModelConstants.DEFAULT_FALLBACK_MODEL) :
    fallbackEligible cfg e = false := by
  simp [fallbackEligible, h]

theorem handleGenerationError_no_fallback (env : GenEnv) (cfg : TTSConfig)
    (req : AudioGenerationRequest) (e : TTSExc)
    (h : fallbackEligible cfg e = false) :
    handleGenerationError env cfg req e =
      ({ success := false, error_message := some e.userMessage,
         processing_mode := some req.processing_mode }, []) := by
  rw [handleGenerationError]
  simp [h]

theorem lookup_fb_model :
    lookupModelDef ModelConstants.DEFAULT_FALLBACK_MODEL = some fallbackModelDef := by
  rfl

theorem generateTraditional_at_fb (env : GenEnv) (req : AudioGenerationRequest)
    (cfg : TTSConfig) (h : cfg.model = ModelConstants.DEFAULT_FALLBACK_MODEL) :
    generateTraditional env cfg req =
      match runGeminiCall env (traditionalPayload env cfg req fallbackModelDef) with
      | .ok audio => (saveAndReturn env cfg req audio "traditional" 0,
          [traditionalPayload env cfg req fallbackModelDef])
      | .error e =>
        (({ success := false, error_message := some e.userMessage,
            processing_mode := some req.processing_mode } : AudioGenerationResult),
         [traditionalPayload env cfg req fallbackModelDef]) := by
  rw [generateTraditional, h, lookup_fb_model]
  cases hcall : runGeminiCall env (traditionalPayload env cfg req fallbackModelDef) with
  | ok audio => simp [hcall]
  | error e =>
    simp only [hcall]
    rw [handleGenerationError_no_fallback env cfg req e (fallbackEligible_at_fb cfg e h)]

theorem handleGenerationError_eligible_eq (env : GenEnv) (cfg : TTSConfig)
    (req : AudioGenerationRequest) (e : TTSExc)
    (helig : fallbackEligible cfg e = true) :
    handleGenerationError env cfg req e =
      match runGeminiCall env (fallbackPayload env cfg req) with
      | .ok audio =>
        (saveAndReturn env { cfg with model := ModelConstants.DEFAULT_FALLBACK_MODEL }
          (fallbackRequest req) audio "traditional" 0, [fallbackPayload env cfg req])
      | .error _ =>
        (({ success := false, error_message := some e.userMessage,
            processing_mode := some req.processing_mode } : AudioGenerationResult),
         [fallbackPayload env cfg req]) := by
  rw [handleGenerationError]
  simp only [helig, dite_true]
  rw [generateTraditional_at_fb env
    { text := req.text, processing_mode := "traditional", use_cache := req.use_cache }
    { cfg with model := ModelConstants.DEFAULT_FALLBACK_MODEL } rfl]
  simp only [fallbackPayload, fallbackRequest]
  cases hcall : runGeminiCall env
      (traditionalPayload env { cfg with model := ModelConstants.DEFAULT_FALLBACK_MODEL }
        { text := req.text, processing_mode := "traditional", use_cache := req.use_cache }
        fallbackModelDef) with
  | ok audio => simp [hcall, saveAndReturn]
  | error e2 => simp [hcall]

theorem generateTraditional_primary_error (env : GenEnv) (cfg : TTSConfig)
    (req : AudioGenerationRequest) (mdef : ModelDef) (e : TTSExc)
    (hlk : lookupModelDef cfg.model = some mdef)
    (hfail : runGeminiCall env (traditionalPayload env cfg req mdef) = .error e) :
    generateTraditional env cfg req =
      ((handleGenerationError env cfg req e).1,
       traditionalPayload env cfg req mdef :: (handleGenerationError env cfg req e).2) := by
  rw [generateTraditional, hlk]
  simp only [hfail]

theorem generateUnified_primary_error (env : GenEnv) (cfg : TTSConfig)
    (req : AudioGenerationRequest) (mdef : ModelDef) (e : TTSExc)
    (hlk : lookupModelDef cfg.model = some mdef)
    (hfail : runGeminiCall env (unifiedPayload cfg req mdef) = .error e) :
    generateUnified env cfg req =
      ((handleGenerationError env cfg req e).1,
       unifiedPayload cfg req mdef :: (handleGenerationError env cfg req e).2) := by
  rw [generateUnified, hlk]
  simp only [hfail]

/-- C2: whenever a primary generation attempt (traditional or unified) fails
with an error that is neither an `InvalidAPIKeyException` nor a
`RateLimitedException`, fallback is enabled in configuration, and the
configured model is not already the designated fallback model, exactly one
additional API call is made, and it goes to the fallback model (the list of
calls performed is exactly primary-then-fallback, so there is no second
fallback and no retry chain); whenever the failure is an
`InvalidAPIKeyException` or a `RateLimitedException`, the primary call is the
only call made. -/
theorem fallback_policy_exact_calls (env : GenEnv) (cfg : TTSConfig)
    (req : AudioGenerationRequest) (mdef : ModelDef) (e : TTSExc)
    (hlk : lookupModelDef cfg.model = some mdef) :
    (runGeminiCall env (traditionalPayload env cfg req mdef) = .error e →
      ((e.isCredentialOrRateLimit = false → cfg.enable_fallback = true →
        cfg.model ≠ ModelConstants.DEFAULT_FALLBACK_MODEL →
        (generateTraditional env cfg req).2 =
          [traditionalPayload env cfg req mdef, fallbackPayload env cfg req]) ∧
       (e.isCredentialOrRateLimit = true →
        (generateTraditional env cfg req).2 = [traditionalPayload env cfg req mdef]))) ∧
    (runGeminiCall env (unifiedPayload cfg req mdef) = .error e →
      ((e.isCredentialOrRateLimit = false → cfg.enable_fallback = true →
        cfg.model ≠ ModelConstants.DEFAULT_FALLBACK_MODEL →
        (generateUnified env cfg req).2 =
          [unifiedPayload cfg req mdef, fallbackPayload env cfg req]) ∧
       (e.isCredentialOrRateLimit = true →
        (generateUnified env cfg req).2 = [unifiedPayload cfg req mdef]))) := by
  constructor
  · intro hfail
    constructor
    · intro hc hen hne
      have helig : fallbackEligible cfg e = true := by
        simp [fallbackEligible, hen, hc, bne_iff_ne, hne]
      rw [generateTraditional_primary_error env cfg req mdef e hlk hfail,
        handleGenerationError_eligible_eq env cfg req e helig]
      cases hfb : runGeminiCall env (fallbackPayload env cfg req) <;> simp [hfb]
    · intro hc
      have helig : fallbackEligible cfg e = false := by
        simp [fallbackEligible, hc]
      rw [generateTraditional_primary_error env cfg req mdef e hlk hfail,
        handleGenerationError_no_fallback env cfg req e helig]
  · intro hfail
    constructor
    · intro hc hen hne
      have helig : fallbackEligible cfg e = true := by
        simp [fallbackEligible, hen, hc, bne_iff_ne, hne]
      rw [generateUnified_primary_error env cfg req mdef e hlk hfail,
        handleGenerationError_eligible_eq env cfg req e helig]
      cases hfb : runGeminiCall env (fallbackPayload env cfg req) <;> simp [hfb]
    · intro hc
      have helig : fallbackEligible cfg e = false := by
        simp [fallbackEligible, hc]
      rw [generateUnified_primary_error env cfg req mdef e hlk hfail,
        handleGenerationError_no_fallback env cfg req e helig]

theorem fallback_policy_exact_calls_witness :
    (generateTraditional envBothCallsFail {} { text := "hi", processing_mode := "traditional" }).2 =
      [traditionalPayload envBothCallsFail {} { text := "hi", processing_mode := "traditional" }
         flashUnifiedDef,
       fallbackPayload envBothCallsFail {} { text := "hi", processing_mode := "traditional" }] ∧
    (generateTraditional envCredentialFail {} { text := "hi", processing_mode := "traditional" }).2 =
      [traditionalPayload envCredentialFail {} { text := "hi", processing_mode := "traditional" }
         flashUnifiedDef] :=
  ⟨((fallback_policy_exact_calls envBothCallsFail {}
      { text := "hi", processing_mode := "traditional" } flashUnifiedDef
      (.connectionError "connection refused") rfl).1 (by rfl)).1 rfl rfl (by decide),
   ((fallback_policy_exact_calls envCredentialFail {}
      { text := "hi", processing_mode := "traditional" } flashUnifiedDef
      (.invalidAPIKey "HTTP 403: Forbidden") rfl).1 (by rfl)).2 rfl⟩

/-- C6: when the single fallback attempt also fails, the result returned to
the caller is a failure whose error information (the `user_message` put into
`error_message`) comes from the original primary failure `e`, not from the
fallback failure `e2`, and whose `processing_mode` is the original request's
mode.  Stated for both generation paths. -/
theorem fallback_failure_preserves_original_error (env : GenEnv) (cfg : TTSConfig)
    (req : AudioGenerationRequest) (mdef : ModelDef) (e e2 : TTSExc)
    (hlk : lookupModelDef cfg.model = some mdef)
    (helig : fallbackEligible cfg e = true)
    (hfb : runGeminiCall env (fallbackPayload env cfg req) = .error e2) :
    (runGeminiCall env (traditionalPayload env cfg req mdef) = .error e →
      (generateTraditional env cfg req).1 =
        { success := false, error_message := some e.userMessage,
          processing_mode := some req.processing_mode }) ∧
    (runGeminiCall env (unifiedPayload cfg req mdef) = .error e →
      (generateUnified env cfg req).1 =
        { success := false, error_message := some e.userMessage,
          processing_mode := some req.processing_mode }) := by
  constructor
  · intro hfail
    rw [generateTraditional_primary_error env cfg req mdef e hlk hfail,
      handleGenerationError_eligible_eq env cfg req e helig]
    simp [hfb]
  · intro hfail
    rw [generateUnified_primary_error env cfg req mdef e hlk hfail,
      handleGenerationError_eligible_eq env cfg req e helig]
    simp [hfb]

theorem fallback_failure_preserves_original_error_witness :
    (generateTraditional envBothCallsFail {} { text := "hi", processing_mode := "traditional" }).1 =
      { success := false, error_message := some "Connection failed. Check your internet.",
        processing_mode := some "traditional" } :=
  (fallback_failure_preserves_original_error envBothCallsFail {}
    { text := "hi", processing_mode := "traditional" } flashUnifiedDef
    (.connectionError "connection refused") (.apiError "HTTP 500: Server Error" (some 500))
    rfl (by decide) (by rfl)).1 (by rfl)

theorem generateAudio_eq_dispatch (env : GenEnv) (cfg : TTSConfig)
    (req : AudioGenerationRequest)
    (hmiss : env.cacheLookup (generateCacheKey cfg req) = none) :
    generateAudio env cfg req =
      if req.processing_mode = "unified" then generateUnified env cfg req
      else generateTraditional env cfg req := by
  unfold generateAudio
  by_cases hcm : req.use_cache && env.hasCacheManager
  · simp [hcm, tryCacheLookup, hmiss]
  · simp [hcm]

/-- C7: once the audio bytes have been obtained from the API, a cache write
failure (`save_audio` raising `CacheWriteException`) never turns the outcome
into a failure: `generate_audio` still returns a result with `success = true`
(and merely no cached filename).  Stated for both generation paths. -/
theorem cache_write_failure_preserves_success (env : GenEnv) (cfg : TTSConfig)
    (req : AudioGenerationRequest) (mdef : ModelDef) (audio : List Nat) (msg : String)
    (hlk : lookupModelDef cfg.model = some mdef)
    (hmiss : env.cacheLookup (generateCacheKey cfg req) = none)
    (hsave : env.cacheSave (generateCacheKey cfg req) audio = .error (.cacheWriteError msg)) :
    (req.processing_mode ≠ "unified" →
      runGeminiCall env (traditionalPayload env cfg req mdef) = .ok audio →
      ((generateAudio env cfg req).1.success = true ∧
       (generateAudio env cfg req).1.filename = none)) ∧
    (req.processing_mode = "unified" →
      runGeminiCall env (unifiedPayload cfg req mdef) = .ok audio →
      ((generateAudio env cfg req).1.success = true ∧
       (generateAudio env cfg req).1.filename = none)) := by
  constructor
  · intro hmode hok
    rw [generateAudio_eq_dispatch env cfg req hmiss, if_neg hmode]
    rw [generateTraditional, hlk]
    simp only [hok]
    simp [saveAndReturn, hsave]
  · intro hmode hok
    rw [generateAudio_eq_dispatch env cfg req hmiss, if_pos hmode]
    rw [generateUnified, hlk]
    simp only [hok]
    simp [saveAndReturn, hsave]

set_option maxRecDepth 8000 in
theorem cache_write_failure_preserves_success_witness :
    (generateAudio envOkAudioFailingCache {}
        { text := "hi", processing_mode := "traditional" }).1.success = true ∧
    (generateAudio envOkAudioFailingCache {}
        { text := "hi", processing_mode := "traditional" }).1.filename = none :=
  (cache_write_failure_preserves_success envOkAudioFailingCache {}
    { text := "hi", processing_mode := "traditional" } flashUnifiedDef
    (List.replicate 1500 0) "disk full" rfl (by rfl) (by rfl)).1 (by decide) (by rfl)

theorem extractAudioTry_ok_size (body : ResponseEnvelope) (audio : List Nat)
    (h : extractAudioTry body = .ok audio) :
    AudioConstants.MIN_AUDIO_SIZE ≤ audio.length ∧
      audio.length ≤ AudioConstants.MAX_AUDIO_SIZE := by
  rcases body with msg | cands
  · simp [extractAudioTry] at h
  · rcases cands with _ | cs
    · simp [extractAudioTry] at h
    · rcases cs with _ | ⟨c, rest⟩
      · simp [extractAudioTry] at h
      · rcases c with ⟨oc⟩
        rcases oc with _ | cont
        · simp [extractAudioTry] at h
        · rcases cont with ⟨op⟩
          rcases op with _ | ps
          · simp [extractAudioTry] at h
          · rcases ps with _ | ⟨p, prest⟩
            · simp [extractAudioTry] at h
            · rcases p with ⟨oid⟩
              rcases oid with _ | idata
              · simp [extractAudioTry] at h
              · rcases idata with ⟨od⟩
                rcases od with _ | audio0
                · simp [extractAudioTry] at h
                · simp only [extractAudioTry] at h
                  by_cases h1 : audio0.length < AudioConstants.MIN_AUDIO_SIZE
                  · rw [if_pos h1] at h
                    simp at h
                  · rw [if_neg h1] at h
                    by_cases h2 : audio0.length > AudioConstants.MAX_AUDIO_SIZE
                    · rw [if_pos h2] at h
                      simp at h
                    · rw [if_neg h2] at h
                      injection h with h3
                      exact h3 ▸ ⟨not_lt.mp h1, not_lt.mp h2⟩

theorem extractAudioData_ok_iff (body : ResponseEnvelope) (audio : List Nat) :
    extractAudioData body = .ok audio ↔ extractAudioTry body = .ok audio := by
  unfold extractAudioData
  cases htry : extractAudioTry body with
  | ok a => simp
  | error e => cases e <;> simp

theorem callGeminiApi_ok_size (t : Transport) (audio : List Nat)
    (h : callGeminiApi t = .ok audio) :
    AudioConstants.MIN_AUDIO_SIZE ≤ audio.length ∧
      audio.length ≤ AudioConstants.MAX_AUDIO_SIZE := by
  rcases t with ⟨status, body⟩ | ⟨s, r⟩ | m
  · simp only [callGeminiApi] at h
    by_cases hs : status ≠ 200
    · rw [if_pos hs] at h
      simp at h
    · rw [if_neg hs] at h
      cases hex : extractAudioData body with
      | ok a =>
        rw [hex] at h
        simp at h
        exact h ▸ extractAudioTry_ok_size body a ((extractAudioData_ok_iff body a).mp hex)
      | error e =>
        rw [hex] at h
        simp at h
  · simp [callGeminiApi] at h
  · simp [callGeminiApi] at h

set_option maxRecDepth 8000 in
/-- C4 (code bug): a successful HTTP response whose decoded audio payload is
smaller than `MIN_AUDIO_SIZE` or larger than `MAX_AUDIO_SIZE` indeed never
produces a successful result — every audio payload a call can return is
size-validated (first conjunct) — but the surfaced error is *not* of kind
`AudioSizeException`: the `AudioSizeException` raised by the validation is
caught by `_extract_audio_data`'s own blanket `except Exception` handler and
re-raised as a generic `AudioException`, which `_call_gemini_api`'s blanket
`except Exception` wraps once more into a plain `APIException`.  At a
500-byte payload the call returns exactly that doubly-wrapped `APIException`
(second conjunct). -/
theorem audio_size_validation_wrapped_error :
    (∀ (t : Transport) (audio : List Nat), callGeminiApi t = .ok audio →
      AudioConstants.MIN_AUDIO_SIZE ≤ audio.length ∧
        audio.length ≤ AudioConstants.MAX_AUDIO_SIZE) ∧
    callGeminiApi (.ok 200 (inlineAudioResponse (List.replicate 500 0))) =
      .error (.apiError
        "API call failed: Audio extraction failed: [AUDIO_SIZE_ERROR] Audio data too small"
        none) := by
  refine ⟨fun t audio h => callGeminiApi_ok_size t audio h, ?_⟩
  rfl

set_option maxRecDepth 8000 in
theorem audio_size_validation_wrapped_error_witness :
    AudioConstants.MIN_AUDIO_SIZE ≤ (List.replicate 1500 (0 : Nat)).length ∧
      (List.replicate 1500 (0 : Nat)).length ≤ AudioConstants.MAX_AUDIO_SIZE :=
  audio_size_validation_wrapped_error.1
    (.ok 200 (inlineAudioResponse (List.replicate 1500 0))) (List.replicate 1500 0) (by rfl)
